import Mathlib

/-!
Verification of the real-time emotion-analysis pipeline of
`mental-health-ai-assistant`, shallowly embedded in Lean 4.

The embedding follows the Python sources:
* `emotion_analysis/parallel_analyzer.py` — the audio endpointing loop
  (`_process_audio`) and the per-utterance downstream step (`_process_speech`);
* `emotion_analysis/voice_analyzer.py` — transcript sentiment
  (`analyze_text_sentiment`), acoustic rule scoring
  (`analyze_acoustic_emotion`) and the 0.3/0.7 fusion (`analyze_emotion`);
* `emotion_analysis/emotion_analyzer.py` — the 3-frame buffer (`add_frame`,
  `get_emotion`, `reset`);
* `emotion_analysis/multimodal_integration.py` — follow-up merging
  (`_integrate_analyses`) and emotion-triggered follow-up generation
  (`_generate_emotion_followups`).

Machine reals are modelled as `ℚ`; audio chunks are represented by their
normalized energy `mean(|samples|)/32768`, which is the only attribute the
endpointing loop inspects.
-/

namespace MHAA

/-- The five voice-channel emotion labels, in the insertion order of the
Python `emotion_scores` dict (`anger, happiness, sadness, fear, neutral`). -/
inductive Emotion
  | anger
  | happiness
  | sadness
  | fear
  | neutral
deriving DecidableEq, Repr

/-- Dict insertion order of `emotion_scores` in `analyze_acoustic_emotion`;
Python `max(d.items(), key=...)` scans items in this order and keeps the
first maximal entry. -/
def emotionOrder : List Emotion :=
  [Emotion.anger, Emotion.happiness, Emotion.sadness, Emotion.fear, Emotion.neutral]

/-- Python `max(items, key=value)` over emotions listed in `emotionOrder`:
the first label attaining the maximal score wins ties, because `max` only
replaces the current best on a strictly greater key. -/
def argmaxEmotion (g : Emotion → ℚ) : Emotion :=
  (emotionOrder.tail).foldl (fun best e => if g best < g e then e else best) Emotion.anger

/-! ## Speech endpointing (`ParallelAnalyzer._process_audio`)

The loop state consists of the instance field `self.speaking`, the buffer
`self.speech_frames`, and the two local counters `silent_frames` and
`speech_frames_count`.  A chunk is represented by its normalized energy. -/

/-- `self.silence_threshold = 0.01`. -/
def silence_threshold : ℚ := 1/100

/-- `self.sample_rate = 16000`. -/
def sample_rate : ℕ := 16000

/-- `self.chunk_size = 1024`. -/
def chunk_size : ℕ := 1024

/-- `max_silent_frames = int(self.silence_limit * self.sample_rate / self.chunk_size)`
with `silence_limit = 1.0`; `int(15.625) = 15`. -/
def max_silent_frames : ℕ := sample_rate / chunk_size

/-- `max_speech_frames = int(self.speech_limit * self.sample_rate / self.chunk_size)`
with `speech_limit = 10.0`; `int(156.25) = 156`. -/
def max_speech_frames : ℕ := 10 * sample_rate / chunk_size

/-- State of the audio worker loop: `speaking` and `speech_frames` are the
instance fields, `silent_frames` and `speech_frames_count` the loop locals. -/
structure AudioState where
  speaking : Bool
  speech_frames : List ℚ
  silent_frames : ℕ
  speech_frames_count : ℕ
deriving DecidableEq, Repr

/-- Loop state before the first chunk: `speaking = False`, empty buffer,
both counters `0`. -/
def initAudioState : AudioState := ⟨false, [], 0, 0⟩

/-- One iteration of the `while self.audio_running` loop body of
`_process_audio` on a chunk of normalized energy `e`.  Returns the new state
and `some buffer` when `_process_speech` was entered with a non-empty
buffer (a finalize event), `none` otherwise.  `_process_speech` itself sets
`speaking := False` and clears `speech_frames`; the loop body then zeroes
`speech_frames_count` (and, on the silence path, `silent_frames`). -/
def audioStep (s : AudioState) (e : ℚ) : AudioState × Option (List ℚ) :=
  if silence_threshold < e then
    -- speech detected
    let s1 : AudioState :=
      if s.speaking then s else { s with speaking := true, speech_frames := [] }
    let s2 : AudioState :=
      { s1 with
          speech_frames := s1.speech_frames ++ [e]
          speech_frames_count := s1.speech_frames_count + 1
          silent_frames := 0 }
    if max_speech_frames ≤ s2.speech_frames_count then
      ({ s2 with speaking := false, speech_frames := [], speech_frames_count := 0 },
        some s2.speech_frames)
    else
      (s2, none)
  else if s.speaking then
    -- silence while speaking
    let s2 : AudioState :=
      { s with
          speech_frames := s.speech_frames ++ [e]
          silent_frames := s.silent_frames + 1
          speech_frames_count := s.speech_frames_count + 1 }
    if max_silent_frames ≤ s2.silent_frames then
      ({ s2 with
          speaking := false, speech_frames := [],
          speech_frames_count := 0, silent_frames := 0 },
        some s2.speech_frames)
    else
      (s2, none)
  else
    (s, none)

/-- Run the loop over a list of chunk energies, collecting the finalized
utterance buffers in order. -/
def audioRun (s : AudioState) (es : List ℚ) : AudioState × List (List ℚ) :=
  match es with
  | [] => (s, [])
  | e :: rest =>
      let p := audioStep s e
      let q := audioRun p.1 rest
      (q.1, p.2.toList ++ q.2)

/-! ## Per-utterance downstream step (`ParallelAnalyzer._process_speech`)

Which pipeline stages run for a finalize event.  `analyze_emotion` (in
`voice_analyzer.py`) first extracts features; on success it always runs the
acoustic scorer, the transcript sentiment scorer and the weighted fusion.
Back in `_process_speech`, the multimodal analysis, the LLM response and the
result callback run only under `if text:` and `if text and face_image is not
None:`. -/

/-- Which stages a single `_process_speech` call executed. -/
structure SpeechOutcome where
  ranAcoustic : Bool
  ranSentiment : Bool
  ranVoiceFusion : Bool
  ranMultimodal : Bool
  invokedCallback : Bool
  speakingAfter : Bool
deriving DecidableEq, Repr

/-- Control flow of `_process_speech`: `bufNonempty` is
`bool(self.speech_frames)`, `featuresOk` is whether `extract_features`
returned a non-empty feature dict, `transcript` is the text returned by the
external ASR (empty on failure), `hasFrame` is whether `processed_frames`
is non-empty, and `callbackRegistered` is whether `results_callback` is set. -/
def process_speech (bufNonempty featuresOk : Bool) (transcript : String)
    (hasFrame callbackRegistered : Bool) : SpeechOutcome :=
  if !bufNonempty then
    -- `if not self.speech_frames: self.speaking = False; return`
    ⟨false, false, false, false, false, false⟩
  else if !featuresOk then
    -- `analyze_emotion` returns an error dict before any scoring;
    -- `speech_analysis.get('transcribed_text','')` is then empty
    ⟨false, false, false, false, false, false⟩
  else
    -- `analyze_emotion` ran transcription, sentiment, acoustic and fusion
    let text := transcript
    let runsText := text != "" && hasFrame
    ⟨true, true, true, runsText, runsText && callbackRegistered, false⟩

/-! ## Transcript sentiment (`VoiceAnalyzer.analyze_text_sentiment`)

The VADER `compound` polarity is produced by an external lexicon and enters
the model as a parameter; the mapping from `compound` (plus keyword matches
on the lowercased text) to an emotion label and confidence is the code under
verification.  Text is a list of characters; `word in text_lower` is
substring containment. -/

/-- `pat` occurs at the start of `l`. -/
def startsWith : List Char → List Char → Bool
  | [], _ => true
  | _ :: _, [] => false
  | p :: ps, c :: cs => p == c && startsWith ps cs

/-- Python `pat in text`: `pat` occurs as a contiguous substring of `text`. -/
def containsSub (pat : List Char) : List Char → Bool
  | [] => pat.isEmpty
  | c :: cs => startsWith pat (c :: cs) || containsSub pat cs

/-- `anger_words` of `analyze_text_sentiment`. -/
def anger_words : List (List Char) :=
  ["angry".toList, "mad".toList, "furious".toList, "annoyed".toList,
   "irritated".toList, "hate".toList]

/-- `fear_words` of `analyze_text_sentiment`. -/
def fear_words : List (List Char) :=
  ["scared".toList, "afraid".toList, "terrified".toList, "anxious".toList,
   "nervous".toList, "worried".toList, "fear".toList]

/-- `any(word in text_lower for word in words)` with `text_lower = text.lower()`. -/
def hasAnyWord (words : List (List Char)) (text : List Char) : Bool :=
  words.any (fun w => containsSub w (text.map Char.toLower))

/-- `analyze_text_sentiment`: maps the VADER `compound` score (and keyword
matches on the text) to an (emotion, confidence) pair.  The empty text
returns `(neutral, 0.5)` before any scoring. -/
def analyze_text_sentiment (text : List Char) (compound : ℚ) : Emotion × ℚ :=
  if text.isEmpty then
    (Emotion.neutral, 1/2)
  else if 1/2 ≤ compound then
    (Emotion.happiness, min (1/2 + compound/2) (95/100))
  else if compound ≤ -(1/2) then
    let e :=
      if hasAnyWord anger_words text then Emotion.anger
      else if hasAnyWord fear_words text then Emotion.fear
      else Emotion.sadness
    (e, min (1/2 + |compound|/2) (95/100))
  else
    (Emotion.neutral, 1/2 + (1/2 - |compound|)/2)

/-! ## Acoustic rule scoring (`VoiceAnalyzer.analyze_acoustic_emotion`) -/

/-- The feature-dict keys that `analyze_acoustic_emotion` reads. -/
structure Features where
  energy : ℚ
  zero_crossing_rate : ℚ
  pitch_mean : ℚ
  pitch_std : ℚ
  speech_rate : ℚ
  spectral_centroid : ℚ
  tempo : ℚ
deriving DecidableEq, Repr

/-- Anger rule contributions. -/
def angerScore (f : Features) : ℚ :=
  (if 5/100 < f.energy then 3/10 else 0) +
  (if 200 < f.pitch_mean then 2/10 else 0) +
  (if 7/2 < f.speech_rate then 2/10 else 0) +
  (if 2000 < f.spectral_centroid then 2/10 else 0)

/-- Happiness rule contributions. -/
def happinessScore (f : Features) : ℚ :=
  (if 4/100 < f.energy then 2/10 else 0) +
  (if 40 < f.pitch_std then 3/10 else 0) +
  (if 3 < f.speech_rate ∧ f.speech_rate < 7/2 then 2/10 else 0) +
  (if 1500 < f.spectral_centroid ∧ f.spectral_centroid < 2000 then 2/10 else 0)

/-- Sadness rule contributions. -/
def sadnessScore (f : Features) : ℚ :=
  (if f.energy < 3/100 then 3/10 else 0) +
  (if f.pitch_mean < 180 then 2/10 else 0) +
  (if f.speech_rate < 5/2 then 2/10 else 0) +
  (if f.spectral_centroid < 1500 then 2/10 else 0)

/-- Fear rule contributions. -/
def fearScore (f : Features) : ℚ :=
  (if 2/100 < f.energy ∧ f.energy < 4/100 then 2/10 else 0) +
  (if 30 < f.pitch_std then 2/10 else 0) +
  (if 120 < f.tempo then 2/10 else 0) +
  (if 1/10 < f.zero_crossing_rate then 2/10 else 0)

/-- `max_other_score = max(anger, happiness, sadness, fear)`. -/
def maxOtherScore (f : Features) : ℚ :=
  max (max (angerScore f) (happinessScore f)) (max (sadnessScore f) (fearScore f))

/-- The pre-normalization `emotion_scores` dict: neutral starts at the
baseline `0.3` and is reduced by `min(0.2, max_other_score - 0.5)` when some
other bucket exceeds `0.5`. -/
def rawScore (f : Features) : Emotion → ℚ
  | Emotion.anger => angerScore f
  | Emotion.happiness => happinessScore f
  | Emotion.sadness => sadnessScore f
  | Emotion.fear => fearScore f
  | Emotion.neutral =>
      3/10 - (if 1/2 < maxOtherScore f then min (2/10) (maxOtherScore f - 1/2) else 0)

/-- `total_score = sum(emotion_scores.values())`. -/
def totalScore (f : Features) : ℚ := (emotionOrder.map (rawScore f)).sum

/-- The normalized `emotion_scores` (the code divides each entry by the
total whenever the total is positive). -/
def normScore (f : Features) (e : Emotion) : ℚ :=
  if 0 < totalScore f then rawScore f e / totalScore f else rawScore f e

/-- Result of `analyze_acoustic_emotion`: dominant label, its (normalized)
score as confidence, and the full normalized distribution. -/
structure AcousticResult where
  emotion : Emotion
  confidence : ℚ
  all_emotions : Emotion → ℚ

/-- `analyze_acoustic_emotion` over the extracted features. -/
def analyze_acoustic_emotion (f : Features) : AcousticResult :=
  let dominant := argmaxEmotion (normScore f)
  ⟨dominant, normScore f dominant, normScore f⟩

/-! ## Voice fusion (`VoiceAnalyzer.analyze_emotion`, weighting step) -/

/-- `combined_emotions`: acoustic distribution weighted `0.3` plus the
transcript label's confidence weighted `0.7` as a point mass. -/
def combinedScores (acoustic : Emotion → ℚ) (textEmotion : Emotion)
    (textConfidence : ℚ) (e : Emotion) : ℚ :=
  acoustic e * (3/10) + (if e = textEmotion then textConfidence * (7/10) else 0)

/-- Fused voice estimate (label, pre-normalization confidence, normalized
distribution): the code takes the argmax and its score *before* dividing
every entry by the total. -/
structure FusedResult where
  emotion : Emotion
  confidence : ℚ
  all_emotions : Emotion → ℚ

/-- The weighting/argmax/normalization tail of `analyze_emotion`. -/
def voiceFusion (acoustic : Emotion → ℚ) (textEmotion : Emotion)
    (textConfidence : ℚ) : FusedResult :=
  let combined := combinedScores acoustic textEmotion textConfidence
  let dominant := argmaxEmotion combined
  let total := (emotionOrder.map combined).sum
  ⟨dominant, combined dominant,
    fun e => if 0 < total then combined e / total else combined e⟩

/-! ## Face frame buffer (`EmotionAnalyzer`) -/

/-- The five face-channel labels, indexed as in `self.emotions`
(`0: surprise, 1: happy, 2: anger, 3: sadness, 4: fear`). -/
inductive FaceEmotion
  | surprise
  | happy
  | anger
  | sadness
  | fear
deriving DecidableEq, Repr

/-- `self.emotions[idx]`. -/
def faceLabel : Fin 5 → FaceEmotion
  | 0 => FaceEmotion.surprise
  | 1 => FaceEmotion.happy
  | 2 => FaceEmotion.anger
  | 3 => FaceEmotion.sadness
  | 4 => FaceEmotion.fear

/-- `np.argmax` over the 5 prediction scores: first index attaining the
maximum. -/
def np_argmax5 (p : Fin 5 → ℚ) : Fin 5 :=
  ([1, 2, 3, 4] : List (Fin 5)).foldl (fun best i => if p best < p i then i else best) 0

/-- `add_frame`: `preprocess_frame` may fail (returning `None`), in which
case nothing is appended; otherwise the preprocessed frame is appended and,
if the buffer then holds more than 3 frames, the oldest (`pop(0)`) is
dropped. -/
def add_frame {α : Type} (buf : List α) (preprocessed : Option α) : List α :=
  match preprocessed with
  | none => buf
  | some p =>
      let b := buf ++ [p]
      if 3 < b.length then b.drop 1 else b

/-- `reset`: the frame buffer becomes empty. -/
def reset_frames {α : Type} (_ : List α) : List α := []

/-- Outcome of `get_emotion`: the `waiting` status dict, or an emotion
result with label and confidence. -/
inductive GetEmotionResult
  | waiting
  | result (emotion : FaceEmotion) (confidence : ℚ)
deriving DecidableEq, Repr

/-- `get_emotion`: returns `waiting` when fewer than 3 frames are buffered
or the model is not loaded; otherwise runs the model on the last 3 frames
and takes the argmax label with its score.  The loaded model is an opaque
scoring function supplied by the environment. -/
def get_emotion {α : Type} (buf : List α)
    (model : Option (List α → Fin 5 → ℚ)) : GetEmotionResult :=
  if buf.length < 3 then GetEmotionResult.waiting
  else
    match model with
    | none => GetEmotionResult.waiting
    | some m =>
        let prediction := m (buf.drop (buf.length - 3))
        let idx := np_argmax5 prediction
        GetEmotionResult.result (faceLabel idx) (prediction idx)

/-! ## Follow-up merging (`MultimodalAnalyzer._integrate_analyses`) -/

/-- A suggested follow-up, as the dicts carried through
`multimodal_integration.py` (`priority`, `type`, `text` keys). -/
structure Followup where
  priority : String
  type : String
  text : String
deriving DecidableEq, Repr

/-- `high_priority = [f for f in text_followups if f.get('priority') == 'high']`. -/
def highBucket (text_followups : List Followup) : List Followup :=
  text_followups.filter (fun f => f.priority == "high")

/-- `medium_priority`: medium items of `text_followups + emotion_followups`
whose type is not among the high-bucket types. -/
def mediumBucket (text_followups emotion_followups : List Followup) : List Followup :=
  (text_followups ++ emotion_followups).filter
    (fun f => f.priority == "medium" &&
      !((highBucket text_followups).map (fun h => h.type)).contains f.type)

/-- `low_priority`: low items of `text_followups + emotion_followups` whose
type is not among the high+medium types. -/
def lowBucket (text_followups emotion_followups : List Followup) : List Followup :=
  (text_followups ++ emotion_followups).filter
    (fun f => f.priority == "low" &&
      !((highBucket text_followups ++ mediumBucket text_followups emotion_followups).map
          (fun h => h.type)).contains f.type)

/-- `result['suggested_followups'] = high_priority + medium_priority + low_priority`. -/
def integrate_followups (text_followups emotion_followups : List Followup) : List Followup :=
  highBucket text_followups ++ mediumBucket text_followups emotion_followups ++
    lowBucket text_followups emotion_followups

/-! ## Emotion-triggered follow-ups (`MultimodalAnalyzer._generate_emotion_followups`) -/

/-- A face estimate dict that contains an `emotion` key. -/
structure FaceAnalysis where
  emotion : String
  confidence : ℚ
deriving DecidableEq, Repr

/-- A voice estimate dict that contains an `emotion` key. -/
structure VoiceEstimate where
  emotion : String
  confidence : ℚ
  transcribed_text : String
deriving DecidableEq, Repr

/-- The face-triggered follow-ups (the `elif` chain over the face emotion,
each guarded by `confidence > 0.7`). -/
def faceFollowups (fa : FaceAnalysis) : List Followup :=
  if fa.emotion == "sadness" && 7/10 < fa.confidence then
    [⟨"medium", "emotion_exploration",
      "I notice you seem sad. Would you like to talk about what is troubling you?"⟩]
  else if fa.emotion == "fear" && 7/10 < fa.confidence then
    [⟨"medium", "emotion_exploration",
      "You appear anxious. Is there something specific that is causing you to feel afraid?"⟩]
  else if fa.emotion == "anger" && 7/10 < fa.confidence then
    [⟨"medium", "emotion_exploration",
      "You seem frustrated. Can you tell me what is making you feel this way?"⟩]
  else if fa.emotion == "surprise" && 7/10 < fa.confidence then
    [⟨"low", "emotion_exploration",
      "You look surprised. Did something I said catch you off guard?"⟩]
  else []

/-- The voice-triggered follow-ups (sadness and anger branches, each guarded
by `confidence > 0.7`, with text-aware message variants). -/
def voiceFollowups (va : VoiceEstimate) : List Followup :=
  if va.emotion == "sadness" && 7/10 < va.confidence then
    if va.transcribed_text != "" then
      [⟨"medium", "voice_emotion_exploration",
        "When you said \"" ++ va.transcribed_text ++
          "\", you sounded sad. Would you like to talk more about that?"⟩]
    else
      [⟨"medium", "voice_emotion_exploration",
        "I notice from your tone of voice that you might be feeling down. Would you like to talk about that?"⟩]
  else if va.emotion == "anger" && 7/10 < va.confidence then
    if va.transcribed_text != "" then
      [⟨"medium", "voice_emotion_exploration",
        "I sense some frustration when you said \"" ++ va.transcribed_text ++
          "\". What specifically is bothering you?"⟩]
    else
      [⟨"medium", "voice_emotion_exploration",
        "Your voice suggests you might be frustrated or upset. Is there something specific bothering you?"⟩]
  else []

/-- The voice half of `_generate_emotion_followups`: with a present voice
estimate of confidence `< 0.65` the function returns the follow-ups
gathered so far. -/
def voicePart (fups : List Followup) (voice : Option VoiceEstimate) : List Followup :=
  match voice with
  | none => fups
  | some va => if va.confidence < 65/100 then fups else fups ++ voiceFollowups va

/-- `_generate_emotion_followups`: a present face estimate of confidence
`< 0.6` returns immediately with the (still empty) list, skipping the voice
section entirely. -/
def generate_emotion_followups (face : Option FaceAnalysis)
    (voice : Option VoiceEstimate) : List Followup :=
  match face with
  | none => voicePart [] voice
  | some fa =>
      if fa.confidence < 6/10 then []
      else voicePart (faceFollowups fa) voice

/-! ## Endpointer lemmas -/

theorem max_silent_frames_eq : max_silent_frames = 15 := rfl

theorem max_speech_frames_eq : max_speech_frames = 156 := rfl

/-- Splitting a run over an appended chunk list. -/
theorem audioRun_append (s : AudioState) (xs ys : List ℚ) :
    audioRun s (xs ++ ys) =
      ((audioRun (audioRun s xs).1 ys).1,
        (audioRun s xs).2 ++ (audioRun (audioRun s xs).1 ys).2) := by
  induction xs generalizing s with
  | nil => simp [audioRun]
  | cons x xs ih =>
      simp only [List.cons_append, audioRun, List.append_eq]
      rw [ih]
      simp [List.append_assoc]

/-- A loud chunk while speaking, below the hard cap: appended, counters
advanced, no event. -/
theorem audioStep_loud_cont (b : List ℚ) (sil c : ℕ) (e : ℚ)
    (he : silence_threshold < e) (hc : c + 1 < max_speech_frames) :
    audioStep ⟨true, b, sil, c⟩ e = (⟨true, b ++ [e], 0, c + 1⟩, none) := by
  have h2 : ¬ (max_speech_frames ≤ c + 1) := not_le.mpr hc
  simp [audioStep, he, h2]

/-- A loud chunk while idle: enter `Speaking` with a fresh buffer. -/
theorem audioStep_loud_start (b : List ℚ) (sil c : ℕ) (e : ℚ)
    (he : silence_threshold < e) (hc : c + 1 < max_speech_frames) :
    audioStep ⟨false, b, sil, c⟩ e = (⟨true, [e], 0, c + 1⟩, none) := by
  have h2 : ¬ (max_speech_frames ≤ c + 1) := not_le.mpr hc
  simp [audioStep, he, h2]

/-- A loud chunk that reaches the hard cap: finalize, clear, leave
`Speaking`. -/
theorem audioStep_loud_cap (b : List ℚ) (sil c : ℕ) (e : ℚ)
    (he : silence_threshold < e) (hc : max_speech_frames ≤ c + 1) :
    audioStep ⟨true, b, sil, c⟩ e = (⟨false, [], 0, 0⟩, some (b ++ [e])) := by
  simp [audioStep, he, hc]

/-- A quiet chunk while speaking, below the silence limit: appended,
silence counter advanced, no event. -/
theorem audioStep_quiet_cont (b : List ℚ) (sil c : ℕ) (e : ℚ)
    (he : ¬ silence_threshold < e) (hs : sil + 1 < max_silent_frames) :
    audioStep ⟨true, b, sil, c⟩ e = (⟨true, b ++ [e], sil + 1, c + 1⟩, none) := by
  have h2 : ¬ (max_silent_frames ≤ sil + 1) := not_le.mpr hs
  simp [audioStep, he, h2]

/-- The quiet chunk that reaches the silence limit: finalize, clear,
return to idle. -/
theorem audioStep_quiet_finalize (b : List ℚ) (sil c : ℕ) (e : ℚ)
    (he : ¬ silence_threshold < e) (hs : max_silent_frames ≤ sil + 1) :
    audioStep ⟨true, b, sil, c⟩ e = (⟨false, [], 0, 0⟩, some (b ++ [e])) := by
  simp [audioStep, he, hs]

/-- A quiet chunk while idle is ignored. -/
theorem audioStep_quiet_idle (b : List ℚ) (sil c : ℕ) (e : ℚ)
    (he : ¬ silence_threshold < e) :
    audioStep ⟨false, b, sil, c⟩ e = (⟨false, b, sil, c⟩, none) := by
  simp [audioStep, he]

/-- Running `k` loud chunks while speaking, staying below the hard cap. -/
theorem audioRun_loud (e : ℚ) (he : silence_threshold < e) :
    ∀ (k : ℕ) (b : List ℚ) (c : ℕ), c + k < max_speech_frames →
      audioRun ⟨true, b, 0, c⟩ (List.replicate k e) =
        (⟨true, b ++ List.replicate k e, 0, c + k⟩, []) := by
  intro k
  induction k with
  | zero => intro b c _; simp [audioRun]
  | succ k ih =>
      intro b c hc
      have hc1 : c + 1 < max_speech_frames := by omega
      have hck : (c + 1) + k < max_speech_frames := by omega
      rw [List.replicate_succ]
      simp only [audioRun, audioStep_loud_cont b 0 c e he hc1]
      rw [ih (b ++ [e]) (c + 1) hck]
      simp [List.append_assoc, List.replicate_succ]
      omega

/-- Running `k` quiet chunks while speaking, staying below the silence
limit. -/
theorem audioRun_quiet (e : ℚ) (he : ¬ silence_threshold < e) :
    ∀ (k : ℕ) (b : List ℚ) (sil c : ℕ), sil + k < max_silent_frames →
      audioRun ⟨true, b, sil, c⟩ (List.replicate k e) =
        (⟨true, b ++ List.replicate k e, sil + k, c + k⟩, []) := by
  intro k
  induction k with
  | zero => intro b sil c _; simp [audioRun]
  | succ k ih =>
      intro b sil c hs
      have hs1 : sil + 1 < max_silent_frames := by omega
      have hsk : (sil + 1) + k < max_silent_frames := by omega
      rw [List.replicate_succ]
      simp only [audioRun, audioStep_quiet_cont b sil c e he hs1]
      rw [ih (b ++ [e]) (sil + 1) (c + 1) hsk]
      simp [List.append_assoc, List.replicate_succ]
      omega

/-- Quiet chunks while idle leave the state unchanged and emit nothing. -/
theorem audioRun_quiet_idle (e : ℚ) (he : ¬ silence_threshold < e) :
    ∀ (k : ℕ) (b : List ℚ) (sil c : ℕ),
      audioRun ⟨false, b, sil, c⟩ (List.replicate k e) = (⟨false, b, sil, c⟩, []) := by
  intro k
  induction k with
  | zero => intro b sil c; simp [audioRun]
  | succ k ih =>
      intro b sil c
      rw [List.replicate_succ]
      simp only [audioRun, audioStep_quiet_idle b sil c e he]
      rw [ih]
      simp

/-- Running `n+1` loud chunks from the initial idle state, below the hard
cap: one utterance of `n+1` chunks is being accumulated, no event yet. -/
theorem audioRun_loud_from_init (e : ℚ) (he : silence_threshold < e)
    (n : ℕ) (hn : n + 1 < max_speech_frames) :
    audioRun initAudioState (List.replicate (n + 1) e) =
      (⟨true, List.replicate (n + 1) e, 0, n + 1⟩, []) := by
  rw [List.replicate_succ]
  have h1 : (0 : ℕ) + 1 < max_speech_frames := by omega
  have hk : 1 + n < max_speech_frames := by omega
  simp only [audioRun, initAudioState, audioStep_loud_start [] 0 0 e he h1]
  rw [audioRun_loud e he n [e] 1 hk]
  simp [List.replicate_succ]
  omega

/-- Shared endpointing run: `n+1` loud chunks then `15+m` quiet chunks
produce exactly one finalize event, whose utterance is the `n+1` loud
chunks plus the first `15` quiet chunks, and end in the idle initial
state. -/
theorem audioRun_endpoint (n m : ℕ) (eL eQ : ℚ)
    (hL : silence_threshold < eL) (hQ : ¬ silence_threshold < eQ)
    (hn : n + 1 < max_speech_frames) :
    audioRun initAudioState
        (List.replicate (n + 1) eL ++ List.replicate (15 + m) eQ) =
      (initAudioState,
        [List.replicate (n + 1) eL ++ List.replicate 15 eQ]) := by
  rw [audioRun_append, audioRun_loud_from_init eL hL n hn]
  have hsplit : List.replicate (15 + m) eQ =
      List.replicate 14 eQ ++ (eQ :: List.replicate m eQ) := by
    rw [← List.replicate_succ]
    rw [← List.replicate_add]
    congr 1
    omega
  rw [hsplit, audioRun_append]
  rw [audioRun_quiet eQ hQ 14 (List.replicate (n + 1) eL) 0 (n + 1)
    (by rw [max_silent_frames_eq]; omega)]
  have hfin : max_silent_frames ≤ (0 + 14) + 1 := by rw [max_silent_frames_eq]
  simp only [audioRun,
    audioStep_quiet_finalize (List.replicate (n + 1) eL ++ List.replicate 14 eQ)
      (0 + 14) ((n + 1) + 14) eQ hQ hfin]
  rw [audioRun_quiet_idle eQ hQ m [] 0 0]
  simp only [initAudioState, Option.toList_some, List.append_nil, List.nil_append]
  have hbuf : List.replicate (n + 1) eL ++ List.replicate 14 eQ ++ [eQ] =
      List.replicate (n + 1) eL ++ List.replicate 15 eQ := by
    rw [List.append_assoc, ← List.replicate_succ']
  rw [hbuf]

/-- C1: the spec claims that after `N` above-threshold chunks and `M`
below-threshold chunks with `M × chunkDuration ≥ silenceLimit` (that is,
`M ≥ 16` at 16 kHz / 1024-sample chunks), the single finalize event fires
after chunk `N+M` with `N+M` buffered chunks.  At `N = 1`, `M = 16` the
code's finalized utterance holds `16` chunks, not `N+M = 17`: the silence
limit is `int(15.625) = 15` frames, so the event fires one silent chunk
early. -/
theorem C1_counterexample :
    (1 : ℚ) ≤ (16 : ℚ) * ((chunk_size : ℚ) / (sample_rate : ℚ)) ∧
    ((audioRun initAudioState
        (List.replicate 1 (1 : ℚ) ++ List.replicate 16 (0 : ℚ))).2).map List.length
      = [16] ∧
    ([16] ≠ ([1 + 16] : List ℕ)) := by
  refine ⟨by norm_num [chunk_size, sample_rate], ?_, by decide⟩
  have h := audioRun_endpoint 0 1 (1 : ℚ) (0 : ℚ)
    (by norm_num [silence_threshold]) (by norm_num [silence_threshold])
    (by rw [max_speech_frames_eq]; omega)
  rw [h]
  simp

/-- C1 (amended): a synthetic sequence of `N ≥ 1` above-threshold chunks
(`N` below the hard cap `max_speech_frames`) followed by `M ≥
max_silent_frames = 15` below-threshold chunks fires exactly one finalize
event; the finalized utterance contains exactly `N + max_silent_frames`
chunks (the loud chunks plus the first 15 silent chunks), and the loop
returns to the initial idle state. -/
theorem C1_endpoint_amended (n M : ℕ) (eL eQ : ℚ)
    (hL : silence_threshold < eL) (hQ : ¬ silence_threshold < eQ)
    (hn : n + 1 < max_speech_frames) (hM : max_silent_frames ≤ M) :
    (audioRun initAudioState
        (List.replicate (n + 1) eL ++ List.replicate M eQ)).2
      = [List.replicate (n + 1) eL ++ List.replicate max_silent_frames eQ] ∧
    ((audioRun initAudioState
        (List.replicate (n + 1) eL ++ List.replicate M eQ)).2).map List.length
      = [(n + 1) + max_silent_frames] ∧
    (audioRun initAudioState
        (List.replicate (n + 1) eL ++ List.replicate M eQ)).1 = initAudioState := by
  have hMeq : M = 15 + (M - 15) := by
    rw [max_silent_frames_eq] at hM; omega
  rw [hMeq, audioRun_endpoint (n) (M - 15) eL eQ hL hQ hn]
  refine ⟨by rw [max_silent_frames_eq], ?_, rfl⟩
  simp [max_silent_frames_eq]

/-- C1 witness: `N = 1`, `M = 15` with energies `1` (loud) and `0`
(quiet): one event of `16` chunks. -/
theorem C1_endpoint_amended_witness :
    ((audioRun initAudioState
        (List.replicate 1 (1 : ℚ) ++ List.replicate 15 (0 : ℚ))).2).map List.length
      = [16] := by
  have h := C1_endpoint_amended 0 15 (1 : ℚ) (0 : ℚ)
    (by norm_num [silence_threshold]) (by norm_num [silence_threshold])
    (by rw [max_speech_frames_eq]; omega)
    (by rw [max_silent_frames_eq])
  rw [h.2.1, max_silent_frames_eq]

/-- C2: the spec claims that after a forced max-duration finalize the
state remains `Speaking` (the flag stays true).  Running the loop on
exactly `max_speech_frames = 156` above-threshold chunks does finalize and
emit the 156-chunk utterance, but `_process_speech` sets
`self.speaking = False`. -/
theorem C2_counterexample :
    ((audioRun initAudioState
        (List.replicate max_speech_frames (1 : ℚ))).2).map List.length
      = [max_speech_frames] ∧
    (audioRun initAudioState
        (List.replicate max_speech_frames (1 : ℚ))).1.speaking = false := by
  have hsplit : List.replicate max_speech_frames (1 : ℚ) =
      List.replicate 155 (1 : ℚ) ++ [(1 : ℚ)] := by
    rw [max_speech_frames_eq, ← List.replicate_succ']
  have hL : silence_threshold < (1 : ℚ) := by norm_num [silence_threshold]
  rw [hsplit, audioRun_append,
    audioRun_loud_from_init (1 : ℚ) hL 154 (by rw [max_speech_frames_eq]; omega)]
  have hcap : max_speech_frames ≤ 155 + 1 := by rw [max_speech_frames_eq]
  simp only [audioRun, audioStep_loud_cap (List.replicate 155 (1 : ℚ)) 0 155 (1 : ℚ) hL hcap]
  simp [max_speech_frames_eq]

/-- C2 (amended): when the frame count of the current utterance reaches
`max_speech_frames`, the loop finalizes and emits the utterance
immediately; `_process_speech` then sets the speaking flag to `false` and
clears the buffer, and the counters are reset — the very next
above-threshold chunk re-enters `Speaking` with a fresh buffer, so capture
of the ongoing speech resumes on the following chunk (the flag does not
stay true across the finalize). -/
theorem C2_cap_amended (b : List ℚ) (sil c : ℕ) (e e2 : ℚ)
    (hc : max_speech_frames ≤ c + 1)
    (h : silence_threshold < e) (h2 : silence_threshold < e2) :
    audioStep ⟨true, b, sil, c⟩ e = (⟨false, [], 0, 0⟩, some (b ++ [e])) ∧
    audioStep ⟨false, [], 0, 0⟩ e2 = (⟨true, [e2], 0, 1⟩, none) := by
  refine ⟨audioStep_loud_cap b sil c e h hc, ?_⟩
  have h1 : (0 : ℕ) + 1 < max_speech_frames := by rw [max_speech_frames_eq]; omega
  simpa using audioStep_loud_start [] 0 0 e2 h2 h1

/-- C2 witness: a 156th loud chunk at count 155 finalizes with the flag
going false; the next loud chunk re-enters `Speaking`. -/
theorem C2_cap_amended_witness :
    audioStep ⟨true, [], 0, 155⟩ (1 : ℚ) = (⟨false, [], 0, 0⟩, some [(1 : ℚ)]) ∧
    audioStep ⟨false, [], 0, 0⟩ (1 : ℚ) = (⟨true, [(1 : ℚ)], 0, 1⟩, none) := by
  have h := C2_cap_amended [] 0 155 (1 : ℚ) (1 : ℚ)
    (by rw [max_speech_frames_eq]) (by norm_num [silence_threshold])
    (by norm_num [silence_threshold])
  simpa using h

/-- C3: the spec claims every finalize on a non-empty buffer runs the four
scoring stages and invokes the result callback.  With a registered
callback, a processed frame available and feature extraction succeeding,
an empty transcript (ASR failure) runs acoustic scoring, sentiment and
voice fusion but skips multimodal fusion and never invokes the callback. -/
theorem C3_counterexample :
    (process_speech true true "" true true).ranAcoustic = true ∧
    (process_speech true true "" true true).ranVoiceFusion = true ∧
    (process_speech true true "" true true).ranMultimodal = false ∧
    (process_speech true true "" true true).invokedCallback = false := by
  refine ⟨rfl, rfl, rfl, rfl⟩

/-- C3 (amended): for every finalize on a non-empty buffer whose feature
extraction succeeds, acoustic scoring, transcript sentiment and voice
fusion always run; multimodal fusion runs iff the transcript is non-empty
and a processed frame is available, and the callback is invoked iff
additionally a callback is registered.  `_process_speech` always ends with
the speaking flag false. -/
theorem C3_finalize_amended (transcript : String) (hasFrame cb : Bool) :
    (process_speech true true transcript hasFrame cb).ranAcoustic = true ∧
    (process_speech true true transcript hasFrame cb).ranSentiment = true ∧
    (process_speech true true transcript hasFrame cb).ranVoiceFusion = true ∧
    (process_speech true true transcript hasFrame cb).ranMultimodal
      = (transcript != "" && hasFrame) ∧
    (process_speech true true transcript hasFrame cb).invokedCallback
      = (transcript != "" && hasFrame && cb) ∧
    (process_speech true true transcript hasFrame cb).speakingAfter = false := by
  refine ⟨rfl, rfl, rfl, rfl, rfl, rfl⟩

/-! ## Acoustic scorer properties -/

theorem angerScore_nonneg (f : Features) : 0 ≤ angerScore f := by
  unfold angerScore; split_ifs <;> norm_num

theorem happinessScore_nonneg (f : Features) : 0 ≤ happinessScore f := by
  unfold happinessScore; split_ifs <;> norm_num

theorem sadnessScore_nonneg (f : Features) : 0 ≤ sadnessScore f := by
  unfold sadnessScore; split_ifs <;> norm_num

theorem fearScore_nonneg (f : Features) : 0 ≤ fearScore f := by
  unfold fearScore; split_ifs <;> norm_num

/-- The neutral bucket is reduced by at most `0.2`, hence stays at or
above `0.1`. -/
theorem neutral_ge (f : Features) : 1/10 ≤ rawScore f Emotion.neutral := by
  unfold rawScore
  split_ifs with h
  · have := min_le_left (2/10 : ℚ) (maxOtherScore f - 1/2)
    linarith
  · norm_num

theorem rawScore_nonneg (f : Features) (e : Emotion) : 0 ≤ rawScore f e := by
  cases e with
  | anger => exact angerScore_nonneg f
  | happiness => exact happinessScore_nonneg f
  | sadness => exact sadnessScore_nonneg f
  | fear => exact fearScore_nonneg f
  | neutral => have := neutral_ge f; linarith

theorem totalScore_eq (f : Features) :
    totalScore f = rawScore f Emotion.anger + rawScore f Emotion.happiness +
      rawScore f Emotion.sadness + rawScore f Emotion.fear +
      rawScore f Emotion.neutral := by
  simp only [totalScore, emotionOrder, List.map_cons, List.map_nil,
    List.sum_cons, List.sum_nil]
  ring

theorem totalScore_pos (f : Features) : 0 < totalScore f := by
  rw [totalScore_eq]
  have h1 := angerScore_nonneg f
  have h2 := happinessScore_nonneg f
  have h3 := sadnessScore_nonneg f
  have h4 := fearScore_nonneg f
  have h5 := neutral_ge f
  show (0 : ℚ) < angerScore f + happinessScore f + sadnessScore f + fearScore f +
    rawScore f Emotion.neutral
  linarith

/-- C4: for every feature map with the required keys, the acoustic
distribution has all entries `≥ 0` and sums to exactly `1`; the
pre-normalization neutral score is the `0.3` baseline reduced by
`min(0.2, maxOther − 0.5)` when some other bucket exceeds `0.5`; and the
returned label is the (first-maximum) argmax of the distribution. -/
theorem C4_acoustic_distribution (f : Features) :
    (∀ e : Emotion, 0 ≤ (analyze_acoustic_emotion f).all_emotions e) ∧
    (emotionOrder.map (analyze_acoustic_emotion f).all_emotions).sum = 1 ∧
    rawScore f Emotion.neutral =
      3/10 - (if 1/2 < maxOtherScore f
        then min (2/10) (maxOtherScore f - 1/2) else 0) ∧
    (analyze_acoustic_emotion f).emotion
      = argmaxEmotion (analyze_acoustic_emotion f).all_emotions := by
  have ht := totalScore_pos f
  have hne : totalScore f ≠ 0 := ne_of_gt ht
  refine ⟨?_, ?_, rfl, rfl⟩
  · intro e
    show 0 ≤ normScore f e
    rw [normScore, if_pos ht]
    exact div_nonneg (rawScore_nonneg f e) (le_of_lt ht)
  · show (emotionOrder.map (normScore f)).sum = 1
    simp only [normScore, if_pos ht, emotionOrder, List.map_cons, List.map_nil,
      List.sum_cons, List.sum_nil, add_zero]
    field_simp
    rw [totalScore_eq]
    ring

/-! ## Voice fusion example -/

/-- The acoustic distribution of the spec's fusion example:
`{anger:0.5, happiness:0.1, sadness:0.2, fear:0.1, neutral:0.1}`. -/
def exDist : Emotion → ℚ
  | Emotion.anger => 1/2
  | Emotion.happiness => 1/10
  | Emotion.sadness => 1/5
  | Emotion.fear => 1/10
  | Emotion.neutral => 1/10

/-- C5: voice fusion weights the acoustic distribution by `0.3` and the
transcript label's confidence by `0.7` as a point mass; on the example
distribution with transcript emotion sadness at confidence `0.9`, the
combined sadness score is `0.69`, anger is `0.15`, and the fused label is
sadness with (pre-normalization) confidence `0.69`. -/
theorem C5_fusion_example :
    (∀ (ac : Emotion → ℚ) (te : Emotion) (conf : ℚ) (e : Emotion),
      combinedScores ac te conf e
        = ac e * (3/10) + (if e = te then conf * (7/10) else 0)) ∧
    combinedScores exDist Emotion.sadness (9/10) Emotion.sadness = 69/100 ∧
    combinedScores exDist Emotion.sadness (9/10) Emotion.anger = 15/100 ∧
    (voiceFusion exDist Emotion.sadness (9/10)).emotion = Emotion.sadness ∧
    (voiceFusion exDist Emotion.sadness (9/10)).confidence = 69/100 := by
  have hA : combinedScores exDist Emotion.sadness (9/10) Emotion.anger = 15/100 := by
    norm_num [combinedScores, exDist]
    decide
  have hH : combinedScores exDist Emotion.sadness (9/10) Emotion.happiness = 3/100 := by
    norm_num [combinedScores, exDist]
    decide
  have hS : combinedScores exDist Emotion.sadness (9/10) Emotion.sadness = 69/100 := by
    norm_num [combinedScores, exDist]
  have hF : combinedScores exDist Emotion.sadness (9/10) Emotion.fear = 3/100 := by
    norm_num [combinedScores, exDist]
    decide
  have hN : combinedScores exDist Emotion.sadness (9/10) Emotion.neutral = 3/100 := by
    norm_num [combinedScores, exDist]
    decide
  refine ⟨fun ac te conf e => rfl, hS, hA, ?_, ?_⟩
  · show argmaxEmotion (combinedScores exDist Emotion.sadness (9/10)) = Emotion.sadness
    simp only [argmaxEmotion, emotionOrder, List.tail_cons, List.foldl_cons,
      List.foldl_nil]
    norm_num [hA, hH, hS, hF, hN]
  · show combinedScores exDist Emotion.sadness (9/10)
        (argmaxEmotion (combinedScores exDist Emotion.sadness (9/10))) = 69/100
    simp only [argmaxEmotion, emotionOrder, List.tail_cons, List.foldl_cons,
      List.foldl_nil]
    norm_num [hA, hH, hS, hF, hN]

/-! ## Follow-up merge properties -/

/-- C6: the merged list is the high bucket (taken only from text-derived
suggestions), then medium items whose type is absent from the high bucket,
then low items whose type is absent from high+medium; each bucket is an
order-preserving sublist of its input; and the concrete instance of one
high text item plus two medium emotion items of distinct types yields
`[high, medium1, medium2]` with pairwise distinct types. -/
theorem C6_followup_merge (tf ef : List Followup) :
    integrate_followups tf ef
      = highBucket tf ++ mediumBucket tf ef ++ lowBucket tf ef ∧
    (∀ f ∈ highBucket tf, f ∈ tf ∧ f.priority = "high") ∧
    List.Sublist (highBucket tf) tf ∧
    List.Sublist (mediumBucket tf ef) (tf ++ ef) ∧
    List.Sublist (lowBucket tf ef) (tf ++ ef) ∧
    (∀ f ∈ mediumBucket tf ef, f.priority = "medium" ∧
      f.type ∉ (highBucket tf).map (fun h => h.type)) ∧
    (∀ f ∈ lowBucket tf ef, f.priority = "low" ∧
      f.type ∉ (highBucket tf ++ mediumBucket tf ef).map (fun h => h.type)) ∧
    integrate_followups [⟨"high", "risk", "t1"⟩]
        [⟨"medium", "emotion_exploration", "t2"⟩,
         ⟨"medium", "voice_emotion_exploration", "t3"⟩]
      = [⟨"high", "risk", "t1"⟩, ⟨"medium", "emotion_exploration", "t2"⟩,
         ⟨"medium", "voice_emotion_exploration", "t3"⟩] ∧
    (([⟨"high", "risk", "t1"⟩, ⟨"medium", "emotion_exploration", "t2"⟩,
       ⟨"medium", "voice_emotion_exploration", "t3"⟩] : List Followup).map
        (fun f => f.type)).Nodup := by
  refine ⟨rfl, ?_, List.filter_sublist tf, List.filter_sublist (tf ++ ef),
    List.filter_sublist (tf ++ ef), ?_, ?_, by decide, by decide⟩
  · intro f hf
    simp only [highBucket, List.mem_filter, beq_iff_eq] at hf
    exact hf
  · intro f hf
    rw [mediumBucket, List.mem_filter] at hf
    obtain ⟨_, hp⟩ := hf
    simp at hp
    exact ⟨hp.1, by simpa using hp.2⟩
  · intro f hf
    rw [lowBucket, List.mem_filter] at hf
    obtain ⟨_, hp⟩ := hf
    simp at hp
    exact ⟨hp.1, by simpa using hp.2⟩

/-- C6 witness: the concrete merge instance, and the bucket properties
evaluated at its high item. -/
theorem C6_followup_merge_witness :
    integrate_followups [⟨"high", "risk", "t1"⟩]
        [⟨"medium", "emotion_exploration", "t2"⟩,
         ⟨"medium", "voice_emotion_exploration", "t3"⟩]
      = [⟨"high", "risk", "t1"⟩, ⟨"medium", "emotion_exploration", "t2"⟩,
         ⟨"medium", "voice_emotion_exploration", "t3"⟩] ∧
    (⟨"high", "risk", "t1"⟩ : Followup) ∈ ([⟨"high", "risk", "t1"⟩] : List Followup) ∧
    (⟨"high", "risk", "t1"⟩ : Followup).priority = "high" ∧
    (⟨"medium", "emotion_exploration", "t2"⟩ : Followup).type
      ∉ (highBucket [⟨"high", "risk", "t1"⟩]).map (fun h => h.type) := by
  have h := C6_followup_merge [⟨"high", "risk", "t1"⟩]
    [⟨"medium", "emotion_exploration", "t2"⟩,
     ⟨"medium", "voice_emotion_exploration", "t3"⟩]
  have hmem := h.2.1 ⟨"high", "risk", "t1"⟩ (by decide)
  have hmed := h.2.2.2.2.2.1 ⟨"medium", "emotion_exploration", "t2"⟩ (by decide)
  exact ⟨h.2.2.2.2.2.2.2.1, hmem.1, hmem.2, hmed.2⟩

/-! ## Frame window -/

/-- A single `add_frame` keeps the buffer at or below 3 frames. -/
theorem add_frame_length_le {α : Type} (buf : List α) (a : Option α)
    (hb : buf.length ≤ 3) : (add_frame buf a).length ≤ 3 := by
  cases a with
  | none => simpa [add_frame] using hb
  | some p =>
      simp only [add_frame]
      split_ifs with h
      · simp at h ⊢
        omega
      · simp at h ⊢
        omega

/-- C7: for every sequence of `add_frame` calls starting from a buffer of
at most 3 frames, the buffer never exceeds 3 frames; `reset` empties it;
and on overflow the oldest frame is evicted. -/
theorem C7_frame_window (buf : List ℕ) (adds : List (Option ℕ)) (p : ℕ)
    (hb : buf.length ≤ 3) :
    (adds.foldl add_frame buf).length ≤ 3 ∧
    (reset_frames buf).length = 0 ∧
    (buf.length = 3 → add_frame buf (some p) = buf.drop 1 ++ [p]) := by
  refine ⟨?_, rfl, ?_⟩
  · induction adds generalizing buf with
    | nil => simpa using hb
    | cons a adds ih =>
        simp only [List.foldl_cons]
        exact ih (add_frame buf a) (add_frame_length_le buf a hb)
  · intro h3
    simp only [add_frame]
    rw [if_pos (by simp [h3])]
    rw [List.drop_append_of_le_length (by omega)]

/-- C7 witness: the invariant and eviction at a full 3-frame buffer. -/
theorem C7_frame_window_witness :
    (([some 4] : List (Option ℕ)).foldl add_frame [1, 2, 3]).length ≤ 3 ∧
    (reset_frames ([1, 2, 3] : List ℕ)).length = 0 ∧
    add_frame ([1, 2, 3] : List ℕ) (some 9) = [2, 3, 9] := by
  have h := C7_frame_window [1, 2, 3] [some 4] 9 (by decide)
  exact ⟨h.1, h.2.1, by simpa using h.2.2 rfl⟩

/-- C8: `get_emotion` returns the `waiting` status whenever fewer than 3
frames are buffered (whether or not a model is loaded), and whenever the
model is unavailable (whatever the buffer length). -/
theorem C8_waiting (α : Type) (buf : List α)
    (model : Option (List α → Fin 5 → ℚ)) :
    (buf.length < 3 → get_emotion buf model = GetEmotionResult.waiting) ∧
    (model = none → get_emotion buf model = GetEmotionResult.waiting) := by
  constructor
  · intro h
    simp [get_emotion, h]
  · intro h
    subst h
    unfold get_emotion
    split <;> rfl

/-- C8 witness: an empty buffer with a loaded model, and a 3-frame buffer
with no model, both yield `waiting`. -/
theorem C8_waiting_witness :
    get_emotion ([] : List ℕ) (some (fun _ _ => 1)) = GetEmotionResult.waiting ∧
    get_emotion ([0, 1, 2] : List ℕ) none = GetEmotionResult.waiting := by
  exact ⟨(C8_waiting ℕ [] (some (fun _ _ => 1))).1 (by decide),
    (C8_waiting ℕ [0, 1, 2] none).2 rfl⟩

/-! ## Transcript sentiment mapping -/

/-- C9: the compound polarity maps to an emotion as the spec states:
`compound ≥ 0.5` gives happiness with confidence `min(0.5+compound/2,
0.95)`; `compound ≤ −0.5` gives anger (anger keyword present), else fear
(fear keyword present), else sadness, with confidence
`min(0.5+|compound|/2, 0.95)`; otherwise neutral with confidence
`0.5+(0.5−|compound|)/2`; and the empty transcript gives neutral with
confidence `0.5`, not an error. -/
theorem C9_sentiment_mapping (text : List Char) (compound : ℚ) :
    (text = [] → analyze_text_sentiment text compound = (Emotion.neutral, 1/2)) ∧
    (text ≠ [] → 1/2 ≤ compound →
      analyze_text_sentiment text compound
        = (Emotion.happiness, min (1/2 + compound/2) (95/100))) ∧
    (text ≠ [] → compound ≤ -(1/2) →
      (analyze_text_sentiment text compound).2
          = min (1/2 + |compound|/2) (95/100) ∧
      (hasAnyWord anger_words text = true →
        (analyze_text_sentiment text compound).1 = Emotion.anger) ∧
      (hasAnyWord anger_words text = false → hasAnyWord fear_words text = true →
        (analyze_text_sentiment text compound).1 = Emotion.fear) ∧
      (hasAnyWord anger_words text = false → hasAnyWord fear_words text = false →
        (analyze_text_sentiment text compound).1 = Emotion.sadness)) ∧
    (text ≠ [] → -(1/2) < compound → compound < 1/2 →
      analyze_text_sentiment text compound
        = (Emotion.neutral, 1/2 + (1/2 - |compound|)/2)) := by
  refine ⟨?_, ?_, ?_, ?_⟩
  · intro h
    subst h
    rfl
  · intro h1 h2
    cases text with
    | nil => exact absurd rfl h1
    | cons c cs =>
        unfold analyze_text_sentiment
        split_ifs <;> simp_all
  · intro h1 h2
    have hno : ¬ (1/2 ≤ compound) := by linarith
    cases text with
    | nil => exact absurd rfl h1
    | cons c cs =>
        refine ⟨?_, ?_, ?_, ?_⟩
        · unfold analyze_text_sentiment
          split_ifs <;> simp_all
        · intro ha
          unfold analyze_text_sentiment
          split_ifs <;> simp_all
        · intro ha hfw
          unfold analyze_text_sentiment
          split_ifs <;> simp_all
        · intro ha hfw
          unfold analyze_text_sentiment
          split_ifs <;> simp_all
  · intro h1 h2 h3
    have hno : ¬ (1/2 ≤ compound) := by linarith
    have hno2 : ¬ (compound ≤ -(1/2)) := by linarith
    cases text with
    | nil => exact absurd rfl h1
    | cons c cs =>
        unfold analyze_text_sentiment
        split_ifs <;> simp_all

/-- C9 witness: one concrete input per branch of the mapping. -/
theorem C9_sentiment_mapping_witness :
    analyze_text_sentiment [] 0 = (Emotion.neutral, 1/2) ∧
    analyze_text_sentiment "great".toList (8/10)
      = (Emotion.happiness, min (1/2 + (8/10)/2) (95/100)) ∧
    (analyze_text_sentiment "i hate this".toList (-(6/10))).1 = Emotion.anger ∧
    (analyze_text_sentiment "so worried".toList (-(6/10))).1 = Emotion.fear ∧
    (analyze_text_sentiment "terrible".toList (-(6/10))).1 = Emotion.sadness ∧
    analyze_text_sentiment "ok".toList (1/10)
      = (Emotion.neutral, 1/2 + (1/2 - |(1/10 : ℚ)|)/2) := by
  refine ⟨(C9_sentiment_mapping [] 0).1 rfl,
    (C9_sentiment_mapping "great".toList (8/10)).2.1 (by decide) (by norm_num),
    ((C9_sentiment_mapping "i hate this".toList (-(6/10))).2.2.1 (by decide)
      (by norm_num)).2.1 (by decide),
    ((C9_sentiment_mapping "so worried".toList (-(6/10))).2.2.1 (by decide)
      (by norm_num)).2.2.1 (by decide) (by decide),
    ((C9_sentiment_mapping "terrible".toList (-(6/10))).2.2.1 (by decide)
      (by norm_num)).2.2.2 (by decide) (by decide),
    (C9_sentiment_mapping "ok".toList (1/10)).2.2.2 (by decide) (by norm_num)
      (by norm_num)⟩

/-! ## Emotion follow-up confidence gates -/

/-- C10: a present face estimate with confidence below `0.6` makes
`_generate_emotion_followups` return immediately with the empty list,
never reaching the voice section (even if the voice confidence is high);
and a present voice estimate with confidence below `0.65` ends generation
with exactly the face-derived follow-ups (the same output as with no voice
estimate at all). -/
theorem C10_confidence_gates (fa : FaceAnalysis) (voice : Option VoiceEstimate)
    (face : Option FaceAnalysis) (va : VoiceEstimate) :
    (fa.confidence < 6/10 → generate_emotion_followups (some fa) voice = []) ∧
    (va.confidence < 65/100 →
      generate_emotion_followups face (some va)
        = generate_emotion_followups face none) := by
  constructor
  · intro h
    simp [generate_emotion_followups, h]
  · intro h
    cases face with
    | none => simp [generate_emotion_followups, voicePart, h]
    | some fb =>
        by_cases hf : fb.confidence < 6/10 <;>
          simp [generate_emotion_followups, voicePart, h, hf]

/-- C10 witness: a low-confidence face estimate suppresses a
high-confidence voice follow-up, and a low-confidence voice estimate
leaves only the face follow-ups. -/
theorem C10_confidence_gates_witness :
    generate_emotion_followups (some ⟨"sadness", 1/2⟩)
        (some ⟨"sadness", 9/10, "x"⟩) = [] ∧
    generate_emotion_followups (some ⟨"sadness", 9/10⟩)
        (some ⟨"sadness", 1/2, "x"⟩)
      = generate_emotion_followups (some ⟨"sadness", 9/10⟩) none := by
  exact ⟨(C10_confidence_gates ⟨"sadness", 1/2⟩ (some ⟨"sadness", 9/10, "x"⟩)
      (some ⟨"sadness", 9/10⟩) ⟨"sadness", 1/2, "x"⟩).1 (by norm_num),
    (C10_confidence_gates ⟨"sadness", 1/2⟩ (some ⟨"sadness", 9/10, "x"⟩)
      (some ⟨"sadness", 9/10⟩) ⟨"sadness", 1/2, "x"⟩).2 (by norm_num)⟩

end MHAA
